import Mathlib

/-!
Shallow embedding of `src/lib.rs` of the `rxnorm_api_lib` crate: an
`RxNormClient` with one operation `find_rxcui`, which issues a GET request
against a fixed endpoint, retries once on transport failure, and extracts
`idGroup.rxnormId` from the JSON body.

Strings are modelled as lists of characters (`Str`); machine integers
(`i32`) as `Int` with the explicit range check that Rust's `str::parse`
performs.  Fallible operations that the source `.unwrap()`s are modelled
with an explicit `panic` outcome, since an unwrap on a failed value aborts
the process rather than returning to the caller.
-/

namespace RxNorm

/-- Rust `String` / `&str`, modelled as its list of characters. -/
abbrev Str := List Char

/-! ### Model of the `json` crate values (dependency of `lib.rs`) -/

/-- A parsed JSON value as produced by `json::parse`.  Numbers carry the
rendering the crate's serializer would print for them, since only the
serialized form is consumed downstream. -/
inductive Json where
  | null
  | jbool (b : Bool)
  | jnum (render : Str)
  | jstr (s : Str)
  | jarr (items : List Json)
  | jobj (fields : List (Str × Json))

/-- `json` crate indexing `v[key]`: member lookup on objects, `Null` on a
missing key and on every non-object value. -/
def Json.index (j : Json) (key : Str) : Json :=
  match j with
  | .jobj fields => ((fields.find? (fun p => p.1 == key)).map Prod.snd).getD .null
  | _ => .null

/-- Hexadecimal digit, for `\u00XX` escapes. -/
def hexDigit (n : Nat) : Char :=
  if n < 10 then Char.ofNat ('0'.toNat + n) else Char.ofNat ('a'.toNat + (n - 10))

/-- JSON string escaping as the `json` crate's serializer performs it:
quote, backslash, the named control escapes, `\u00XX` for the remaining
control characters. -/
def escapeChar (c : Char) : Str :=
  if c = '"' then ['\\', '"']
  else if c = '\\' then ['\\', '\\']
  else if c = '\x08' then ['\\', 'b']
  else if c = '\x0c' then ['\\', 'f']
  else if c = '\n' then ['\\', 'n']
  else if c = '\r' then ['\\', 'r']
  else if c = '\t' then ['\\', 't']
  else if c.toNat < 32 then ['\\', 'u', '0', '0', hexDigit (c.toNat / 16), hexDigit (c.toNat % 16)]
  else [c]

/-- Escape every character of a string. -/
def escapeStr : Str → Str
  | [] => []
  | c :: rest => escapeChar c ++ escapeStr rest

mutual

/-- `JsonValue::dump()`: compact serialization, no whitespace. -/
def Json.dump : Json → Str
  | .null => 'n' :: 'u' :: 'l' :: 'l' :: []
  | .jbool true => 't' :: 'r' :: 'u' :: 'e' :: []
  | .jbool false => 'f' :: 'a' :: 'l' :: 's' :: 'e' :: []
  | .jnum r => r
  | .jstr s => '"' :: (escapeStr s ++ ['"'])
  | .jarr items => '[' :: (Json.dumpList items ++ [']'])
  | .jobj fields => '{' :: (Json.dumpFields fields ++ ['}'])

/-- Comma-separated dump of array elements. -/
def Json.dumpList : List Json → Str
  | [] => []
  | [j] => j.dump
  | j :: rest => j.dump ++ ',' :: Json.dumpList rest

/-- Comma-separated dump of object members. -/
def Json.dumpFields : List (Str × Json) → Str
  | [] => []
  | [(k, v)] => '"' :: (escapeStr k ++ '"' :: ':' :: v.dump)
  | (k, v) :: rest => ('"' :: (escapeStr k ++ '"' :: ':' :: v.dump)) ++ ',' :: Json.dumpFields rest

end

/-! ### The string pipeline of `find_rxcui` -/

/-- `.replace(&['[', ']', '\x22'][..], "")`: delete every bracket and
double-quote character. -/
def stripBracketsQuotes (s : Str) : Str :=
  s.filter (fun c => !(c = '[' || c = ']' || c = '"'))

/-- Rust `str::split(',')`: split at every comma; `n` separators yield
`n + 1` pieces, so the empty string yields `[""]`. -/
def splitComma : Str → List Str
  | [] => [[]]
  | c :: rest =>
    if c = ',' then [] :: splitComma rest
    else
      match splitComma rest with
      | [] => [[c]]
      | h :: t => (c :: h) :: t

/-- Rust `str::trim`: strip leading and trailing whitespace. -/
def trim (s : Str) : Str :=
  ((s.dropWhile Char.isWhitespace).reverse.dropWhile Char.isWhitespace).reverse

/-- Value of a decimal digit string. -/
def digitsVal (l : Str) : Nat :=
  l.foldl (fun acc c => acc * 10 + (c.toNat - '0'.toNat)) 0

/-- The digits phase of `i32::from_str`: one or more ASCII digits whose
signed value must fit in the `i32` range. -/
def parseDigits (sign : Int) (digits : Str) : Option Int :=
  if digits.isEmpty then none
  else if digits.all Char.isDigit then
    let v : Int := sign * (digitsVal digits : Int)
    if -2147483648 ≤ v ∧ v ≤ 2147483647 then some v else none
  else none

/-- Rust `str::parse::<i32>()`: an optional sign followed by one or more
ASCII digits, whose value must fit in `i32`; anything else is an error. -/
def parseI32 (s : Str) : Option Int :=
  match s with
  | [] => none
  | c :: rest =>
    if c = '+' then parseDigits 1 rest
    else if c = '-' then parseDigits (-1) rest
    else parseDigits 1 (c :: rest)

/-- `.map(|s| s.parse().unwrap()).collect()`: the whole collection succeeds
only when every entry parses; a failing entry panics, modelled as `none`. -/
def parseAll : List Str → Option (List Int)
  | [] => some []
  | s :: rest =>
    match parseI32 s with
    | none => none
    | some v => (parseAll rest).map (fun ids => v :: ids)

/-! ### Transport, responses and the operation itself -/

/-- `reqwest::Error` as produced for transport-level failures (connection,
DNS, timeout): only its printed message is observed. -/
structure TransportError where
  msg : Str

/-- The body of an obtained HTTP response, already classified by whether
`json::parse` accepts it. -/
inductive Body where
  | invalid (raw : Str)
  | parsed (j : Json)

/-- An obtained HTTP response: status code plus body text. -/
structure Response where
  status : Nat
  body : Body

/-- `StatusCode::is_success()`: the 2xx range. -/
def isSuccessStatus (s : Nat) : Bool := 200 ≤ s && s ≤ 299

/-- The network environment: the transport outcome of the `n`-th call to
`make_call` during one `find_rxcui` invocation. -/
def Network := Nat → Except TransportError Response

/-- Outcome of one `find_rxcui` call.  `ok` and `err` are the two arms of
the returned `Result<Option<Vec<i32>>, &str>`; `panic` is a process abort
through one of the `.unwrap()` calls. -/
inductive FindResult where
  | ok (res : Option (List Int))
  | err (msg : Str)
  | panic
deriving DecidableEq

/-- An issued HTTP request, as `make_call` builds it. -/
structure Request where
  method : Str
  url : Str
  query : List (Str × Str)
deriving DecidableEq

/-- `const RXNAV_URL`. -/
def RXNAV_URL : Str := "https://rxnav.nlm.nih.gov/REST/rxcui.json".data

/-- The wire search mode: `"2"` when `normalize`, else `"0"`. -/
def searchMode (normalize : Bool) : Str :=
  if normalize then "2".data else "0".data

/-- The request `make_call` issues: a GET on `RXNAV_URL` with query
parameters `name=<drug>` and `search=<mode>`. -/
def make_call_request (drug : Str) (mode : Str) : Request :=
  { method := "GET".data
    url := RXNAV_URL
    query := [("name".data, drug), ("search".data, mode)] }

/-- The field `rxnorm["idGroup"]["rxnormId"]` read by `find_rxcui`. -/
def rxnormField (j : Json) : Json :=
  (j.index "idGroup".data).index "rxnormId".data

/-- The 2xx branch of `find_rxcui`: dump the field at `idGroup.rxnormId`,
strip brackets and quotes, compare against `"null"`, otherwise split on
commas, trim, drop empty pieces and parse each piece as `i32`. -/
def extract (j : Json) : FindResult :=
  let result := stripBracketsQuotes (rxnormField j).dump
  if result ≠ "null".data then
    match parseAll (((splitComma result).map trim).filter (fun s => !s.isEmpty)) with
    | some ids => .ok (some ids)
    | none => .panic
  else .ok none

/-- Processing of an obtained response: non-2xx yields the error string,
a 2xx body is parsed (`json::parse(&body).unwrap()` panics on invalid
JSON) and then extracted. -/
def handleResponse (res : Response) : FindResult :=
  if isSuccessStatus res.status then
    match res.body with
    | .invalid _ => .panic
    | .parsed j => extract j
  else .err "RxNav returned an error".data

/-- `find_rxcui`: derive the search mode from `normalize`, call
`make_call`; on a transport error print, sleep two seconds and call again,
unwrapping the second outcome (a second transport error panics).  Returns
the call's outcome together with the list of requests issued, in order.
The diagnostic `println!` and the fixed delay do not affect the result. -/
def find_rxcui (normalize : Bool) (drug : Str) (net : Network) :
    FindResult × List Request :=
  let mode := searchMode normalize
  let req := make_call_request drug mode
  match net 0 with
  | .ok res => (handleResponse res, [req])
  | .error _ =>
    match net 1 with
    | .ok res => (handleResponse res, [req, req])
    | .error _ => (.panic, [req, req])

/-- The response the retry loop hands to the processing code, when any. -/
def obtainedResponse (net : Network) : Option Response :=
  match net 0 with
  | .ok res => some res
  | .error _ =>
    match net 1 with
    | .ok res => some res
    | .error _ => none

/-- The list of trimmed, non-empty pieces that `find_rxcui` parses on the
2xx path, for a parsed body `j`. -/
def pipelineParts (j : Json) : List Str :=
  ((splitComma (stripBracketsQuotes (rxnormField j).dump)).map trim).filter
    (fun s => !s.isEmpty)

/-- Comma-joined concatenation of strings, the shape `dump` gives array
contents once brackets and quotes are stripped. -/
def joinComma : List Str → Str
  | [] => []
  | [s] => s
  | s :: rest => s ++ ',' :: joinComma rest

/-! ### Concrete response bodies and network environments used below -/

/-- `{"idGroup":{"rxnormId":[]}}` -/
def bodyEmptyArr : Json :=
  .jobj [("idGroup".data, .jobj [("rxnormId".data, .jarr [])])]

/-- `{"idGroup":{"rxnormId":["abc"]}}` -/
def bodyAbc : Json :=
  .jobj [("idGroup".data, .jobj [("rxnormId".data, .jarr [.jstr "abc".data])])]

/-- `{"idGroup":{"rxnormId":["null"]}}` -/
def bodyNullStr : Json :=
  .jobj [("idGroup".data, .jobj [("rxnormId".data, .jarr [.jstr "null".data])])]

/-- `{"idGroup":{"rxnormId":["-5"]}}` -/
def bodyNeg : Json :=
  .jobj [("idGroup".data, .jobj [("rxnormId".data, .jarr [.jstr "-5".data])])]

/-- `{"idGroup":{"rxnormId":["1191"]}}` -/
def bodyAspirin : Json :=
  .jobj [("idGroup".data, .jobj [("rxnormId".data, .jarr [.jstr "1191".data])])]

/-- `{"idGroup":{"rxnormId":["12","12","7"]}}`, with a duplicate entry. -/
def bodyDup : Json :=
  .jobj [("idGroup".data, .jobj [("rxnormId".data,
    .jarr [.jstr "12".data, .jstr "12".data, .jstr "7".data])])]

/-- `{"idGroup":{"rxnormId":["2147483648"]}}`, one past `i32::MAX`. -/
def bodyBig : Json :=
  .jobj [("idGroup".data, .jobj [("rxnormId".data, .jarr [.jstr "2147483648".data])])]

/-- `{"idGroup":{"rxnormId":["2147483647"]}}`, exactly `i32::MAX`. -/
def bodyMax : Json :=
  .jobj [("idGroup".data, .jobj [("rxnormId".data, .jarr [.jstr "2147483647".data])])]

/-- `{"idGroup":{}}`: the identifier field is absent. -/
def bodyNoId : Json :=
  .jobj [("idGroup".data, .jobj [])]

/-- A network on which every attempt fails at the transport level. -/
def netBothFail : Network := fun _ => .error ⟨"error sending request".data⟩

/-- A network whose first attempt yields the response `res`. -/
def netFirst (res : Response) : Network :=
  fun n => if n = 0 then .ok res else .error ⟨[]⟩

/-- A network whose first attempt fails at the transport level and whose
second attempt yields the response `res`. -/
def netRetry (res : Response) : Network :=
  fun n => if n = 0 then .error ⟨"connection reset".data⟩ else .ok res

/-! ### Character-level facts -/

/-- A digit character differs from any non-digit character. -/
theorem digit_ne {c : Char} (h : c.isDigit = true) (d : Char) (hd : d.isDigit = false) :
    c ≠ d := by
  intro he
  subst he
  simp [h] at hd

/-- Digit characters are outside the escape table of the serializer. -/
theorem escapeChar_digit {c : Char} (h : c.isDigit = true) : escapeChar c = [c] := by
  have hb : 48 ≤ c.toNat ∧ c.toNat ≤ 57 := by
    simp [Char.isDigit] at h
    exact h
  unfold escapeChar
  rw [if_neg (digit_ne h _ (by decide)), if_neg (digit_ne h _ (by decide)),
    if_neg (digit_ne h _ (by decide)), if_neg (digit_ne h _ (by decide)),
    if_neg (digit_ne h _ (by decide)), if_neg (digit_ne h _ (by decide)),
    if_neg (digit_ne h _ (by decide)), if_neg (by omega)]

/-- Serializing a string of digits escapes nothing. -/
theorem escapeStr_digits {s : Str} (h : ∀ c ∈ s, c.isDigit = true) : escapeStr s = s := by
  induction s with
  | nil => rfl
  | cons c rest ih =>
    show escapeChar c ++ escapeStr rest = c :: rest
    rw [escapeChar_digit (h c (by simp)), ih (fun x hx => h x (by simp [hx]))]
    rfl

/-- Digit characters are not whitespace. -/
theorem digit_not_ws {c : Char} (h : c.isDigit = true) : c.isWhitespace = false := by
  simp only [Char.isWhitespace, Bool.or_eq_false_iff, decide_eq_false_iff_not]
  exact ⟨⟨⟨digit_ne h _ (by decide), digit_ne h _ (by decide)⟩,
    digit_ne h _ (by decide)⟩, digit_ne h _ (by decide)⟩

/-- `dropWhile` is the identity when no character satisfies the predicate. -/
theorem dropWhile_ws_eq_self {s : Str} (h : ∀ c ∈ s, c.isWhitespace = false) :
    s.dropWhile Char.isWhitespace = s := by
  cases s with
  | nil => rfl
  | cons c rest =>
    rw [List.dropWhile_cons]
    simp [h c (by simp)]

/-- `trim` is the identity on digit strings. -/
theorem trim_digits {s : Str} (h : ∀ c ∈ s, c.isDigit = true) : trim s = s := by
  have hws : ∀ c ∈ s, c.isWhitespace = false := fun c hc => digit_not_ws (h c hc)
  unfold trim
  rw [dropWhile_ws_eq_self hws,
    dropWhile_ws_eq_self (fun c hc => hws c (List.mem_reverse.mp hc)),
    List.reverse_reverse]

/-! ### Bracket-and-quote stripping -/

/-- Stripping keeps every digit character. -/
theorem strip_digits {s : Str} (h : ∀ c ∈ s, c.isDigit = true) :
    stripBracketsQuotes s = s := by
  apply List.filter_eq_self.mpr
  intro c hc
  have hd := h c hc
  simp [digit_ne hd '[' (by decide), digit_ne hd ']' (by decide),
    digit_ne hd '"' (by decide)]

theorem strip_append (a b : Str) :
    stripBracketsQuotes (a ++ b) = stripBracketsQuotes a ++ stripBracketsQuotes b :=
  List.filter_append a b

theorem strip_quote (s : Str) :
    stripBracketsQuotes ('"' :: s) = stripBracketsQuotes s := by
  simp [stripBracketsQuotes]

theorem strip_lbrack (s : Str) :
    stripBracketsQuotes ('[' :: s) = stripBracketsQuotes s := by
  simp [stripBracketsQuotes]

theorem strip_comma (s : Str) :
    stripBracketsQuotes (',' :: s) = ',' :: stripBracketsQuotes s := by
  simp [stripBracketsQuotes]

/-! ### Splitting on commas -/

/-- A comma-free string splits into the single piece it is. -/
theorem splitComma_no_comma {s : Str} (h : ∀ c ∈ s, c ≠ ',') : splitComma s = [s] := by
  induction s with
  | nil => rfl
  | cons c rest ih =>
    have hre : splitComma rest = [rest] := ih (fun x hx => h x (by simp [hx]))
    simp only [splitComma]
    rw [if_neg (h c (by simp)), hre]

/-- Splitting a string that starts with a comma-free prefix followed by a
comma peels off the prefix. -/
theorem splitComma_append {s : Str} (r : Str) (h : ∀ c ∈ s, c ≠ ',') :
    splitComma (s ++ ',' :: r) = s :: splitComma r := by
  induction s with
  | nil =>
    simp only [List.nil_append, splitComma, if_pos]
  | cons c rest ih =>
    have ihr := ih (fun x hx => h x (by simp [hx]))
    simp only [List.cons_append, splitComma, List.append_eq]
    rw [if_neg (h c (by simp)), ihr]

/-- Splitting inverts comma-joining for a non-empty list of comma-free
pieces. -/
theorem splitComma_joinComma {l : List Str} (hne : l ≠ [])
    (h : ∀ s ∈ l, ∀ c ∈ s, c ≠ ',') : splitComma (joinComma l) = l := by
  induction l with
  | nil => exact absurd rfl hne
  | cons s rest ih =>
    cases rest with
    | nil => exact splitComma_no_comma (h s (by simp))
    | cons s2 t =>
      rw [show joinComma (s :: s2 :: t) = s ++ ',' :: joinComma (s2 :: t) from rfl,
        splitComma_append _ (h s (by simp)),
        ih (by simp) (fun x hx c hc => h x (by simp [hx]) c hc)]

/-! ### Stripping the dump of a string array -/

/-- Dumping one digit string and stripping recovers the string. -/
theorem strip_jstr_digits {s : Str} (hs : ∀ c ∈ s, c.isDigit = true) :
    stripBracketsQuotes (Json.dump (.jstr s)) = s := by
  rw [show Json.dump (.jstr s) = '"' :: (escapeStr s ++ ['"']) from rfl,
    escapeStr_digits hs, strip_quote, strip_append, strip_digits hs]
  simp [stripBracketsQuotes]

/-- Dumping the elements of an array of digit strings and stripping gives
the comma-joined entries. -/
theorem strip_dumpList_digits {l : List Str}
    (h : ∀ s ∈ l, ∀ c ∈ s, c.isDigit = true) :
    stripBracketsQuotes (Json.dumpList (l.map .jstr)) = joinComma l := by
  induction l with
  | nil => rfl
  | cons s rest ih =>
    cases rest with
    | nil => exact strip_jstr_digits (h s (by simp))
    | cons s2 t =>
      rw [show Json.dumpList ((s :: s2 :: t).map .jstr)
          = Json.dump (.jstr s) ++ ',' :: Json.dumpList ((s2 :: t).map .jstr) from rfl,
        strip_append, strip_comma, strip_jstr_digits (h s (by simp)),
        ih (fun x hx c hc => h x (by simp [hx]) c hc)]
      rfl

/-- Dumping a whole array of digit strings and stripping gives the
comma-joined entries. -/
theorem strip_dump_arr {l : List Str} (h : ∀ s ∈ l, ∀ c ∈ s, c.isDigit = true) :
    stripBracketsQuotes (Json.dump (.jarr (l.map .jstr))) = joinComma l := by
  rw [show Json.dump (.jarr (l.map .jstr))
      = '[' :: (Json.dumpList (l.map .jstr) ++ [']']) from rfl,
    strip_lbrack, strip_append, strip_dumpList_digits h]
  simp [stripBracketsQuotes]

/-- The comma-join of non-empty digit strings never reads `null`. -/
theorem joinComma_ne_null {l : List Str} (hne : l ≠ [])
    (h : ∀ s ∈ l, s ≠ [] ∧ ∀ c ∈ s, c.isDigit = true) :
    joinComma l ≠ "null".data := by
  cases l with
  | nil => exact absurd rfl hne
  | cons s rest =>
    obtain ⟨hs, hd⟩ := h s (by simp)
    cases s with
    | nil => exact absurd rfl hs
    | cons c cs =>
      have hcn : c ≠ 'n' := digit_ne (hd c (by simp)) 'n' (by decide)
      cases rest with
      | nil =>
        intro he
        injection he with h1 _
        exact hcn h1
      | cons s2 t =>
        intro he
        injection he with h1 _
        exact hcn h1

/-! ### `i32` parsing -/

/-- A non-empty digit string whose value fits in `i32` parses to its
decimal value. -/
theorem parseI32_digits {s : Str} (hne : s ≠ []) (hd : ∀ c ∈ s, c.isDigit = true)
    (hr : digitsVal s ≤ 2147483647) : parseI32 s = some ((digitsVal s : Int)) := by
  cases s with
  | nil => exact absurd rfl hne
  | cons c rest =>
    have hc : c.isDigit = true := hd c (by simp)
    simp only [parseI32]
    rw [if_neg (digit_ne hc '+' (by decide)), if_neg (digit_ne hc '-' (by decide))]
    unfold parseDigits
    rw [if_neg (by simp), if_pos (List.all_eq_true.mpr hd)]
    rw [if_pos ⟨by omega, by omega⟩, one_mul]

/-- A digit string whose value exceeds `i32::MAX` fails to parse. -/
theorem parseI32_digits_overflow {s : Str} (hne : s ≠ [])
    (hd : ∀ c ∈ s, c.isDigit = true) (hr : 2147483647 < digitsVal s) :
    parseI32 s = none := by
  cases s with
  | nil => exact absurd rfl hne
  | cons c rest =>
    have hc : c.isDigit = true := hd c (by simp)
    simp only [parseI32]
    rw [if_neg (digit_ne hc '+' (by decide)), if_neg (digit_ne hc '-' (by decide))]
    unfold parseDigits
    rw [if_neg (by simp), if_pos (List.all_eq_true.mpr hd)]
    rw [if_neg (by rintro ⟨-, h2⟩; rw [one_mul] at h2; omega)]

/-- When every entry parses, the collected list is the map of the parses. -/
theorem parseAll_eq_map (l : List Str) (f : Str → Int)
    (h : ∀ s ∈ l, parseI32 s = some (f s)) : parseAll l = some (l.map f) := by
  induction l with
  | nil => rfl
  | cons s rest ih =>
    simp only [parseAll]
    rw [h s (by simp), ih (fun x hx => h x (by simp [hx]))]
    rfl

/-- A single failing entry makes the whole collection fail. -/
theorem parseAll_none {l : List Str} {s : Str} (hmem : s ∈ l)
    (hp : parseI32 s = none) : parseAll l = none := by
  induction l with
  | nil => cases hmem
  | cons a rest ih =>
    rcases List.mem_cons.mp hmem with h | h
    · subst h
      simp [parseAll, hp]
    · simp only [parseAll]
      cases hpa : parseI32 a with
      | none => rfl
      | some v => rw [ih h]; rfl

/-- A successful collection is an element-wise successful parse. -/
theorem parseAll_forall₂ (l : List Str) (ids : List Int) (h : parseAll l = some ids) :
    List.Forall₂ (fun s v => parseI32 s = some v) l ids := by
  induction l generalizing ids with
  | nil =>
    simp only [parseAll, Option.some.injEq] at h
    subst h
    exact List.Forall₂.nil
  | cons s rest ih =>
    simp only [parseAll] at h
    cases hp : parseI32 s with
    | none => rw [hp] at h; cases h
    | some v =>
      rw [hp] at h
      cases hpa : parseAll rest with
      | none => rw [hpa] at h; cases h
      | some ids2 =>
        rw [hpa] at h
        simp only [Option.map_some', Option.some.injEq] at h
        subst h
        exact List.Forall₂.cons hp (ih ids2 hpa)

/-! ### The extraction pipeline on digit-string arrays -/

/-- Splitting, trimming and filtering the comma-join of non-empty digit
strings recovers exactly the entries. -/
theorem parts_of_joinComma {entries : List Str} (hne : entries ≠ [])
    (hent : ∀ s ∈ entries, s ≠ [] ∧ ∀ c ∈ s, c.isDigit = true) :
    ((splitComma (joinComma entries)).map trim).filter (fun s => !s.isEmpty)
      = entries := by
  have hdig : ∀ s ∈ entries, ∀ c ∈ s, c.isDigit = true := fun s hs => (hent s hs).2
  rw [splitComma_joinComma hne
    (fun s hs c hc => digit_ne (hdig s hs c hc) ',' (by decide))]
  have hmap : entries.map trim = entries := by
    conv_rhs => rw [← List.map_id entries]
    exact List.map_congr_left fun s hs => trim_digits (hdig s hs)
  rw [hmap]
  apply List.filter_eq_self.mpr
  intro s hs
  have hne2 := (hent s hs).1
  cases s with
  | nil => exact absurd rfl hne2
  | cons => rfl

/-- On a body whose `idGroup.rxnormId` is an array of non-empty digit
strings, the pieces the code parses are exactly the entries. -/
theorem pipelineParts_digits {j : Json} {entries : List Str}
    (hfield : rxnormField j = .jarr (entries.map .jstr))
    (hne : entries ≠ [])
    (hent : ∀ s ∈ entries, s ≠ [] ∧ ∀ c ∈ s, c.isDigit = true) :
    pipelineParts j = entries := by
  unfold pipelineParts
  rw [hfield, strip_dump_arr (fun s hs => (hent s hs).2)]
  exact parts_of_joinComma hne hent

/-- On a body whose `idGroup.rxnormId` is an array of non-empty digit
strings, extraction reduces to parsing the entries. -/
theorem extract_digits {j : Json} {entries : List Str}
    (hfield : rxnormField j = .jarr (entries.map .jstr))
    (hne : entries ≠ [])
    (hent : ∀ s ∈ entries, s ≠ [] ∧ ∀ c ∈ s, c.isDigit = true) :
    extract j = (match parseAll entries with
      | some ids => FindResult.ok (some ids)
      | none => FindResult.panic) := by
  simp only [extract]
  rw [hfield, strip_dump_arr (fun s hs => (hent s hs).2)]
  rw [if_pos (joinComma_ne_null hne hent), parts_of_joinComma hne hent]

/-! ### Inversion lemmas for `find_rxcui` -/

/-- When the first attempt yields a response, one request is issued and the
response is processed. -/
theorem find_rxcui_first (normalize : Bool) (drug : Str) (net : Network)
    (res : Response) (h0 : net 0 = .ok res) :
    find_rxcui normalize drug net
      = (handleResponse res, [make_call_request drug (searchMode normalize)]) := by
  simp [find_rxcui, h0]

/-- When the first attempt fails at the transport level and the second
yields a response, two requests are issued and the second response is
processed. -/
theorem find_rxcui_retry (normalize : Bool) (drug : Str) (net : Network)
    (e : TransportError) (res : Response)
    (h0 : net 0 = .error e) (h1 : net 1 = .ok res) :
    find_rxcui normalize drug net
      = (handleResponse res, [make_call_request drug (searchMode normalize),
          make_call_request drug (searchMode normalize)]) := by
  simp [find_rxcui, h0, h1]

/-- When both attempts fail at the transport level, the unwrap of the
second outcome aborts. -/
theorem find_rxcui_bothFail (normalize : Bool) (drug : Str) (net : Network)
    (e0 e1 : TransportError) (h0 : net 0 = .error e0) (h1 : net 1 = .error e1) :
    find_rxcui normalize drug net
      = (.panic, [make_call_request drug (searchMode normalize),
          make_call_request drug (searchMode normalize)]) := by
  simp [find_rxcui, h0, h1]

/-- A 2xx response with a parsed body is handled by `extract`. -/
theorem handleResponse_success (st : Nat) (j : Json)
    (hs : isSuccessStatus st = true) :
    handleResponse ⟨st, .parsed j⟩ = extract j := by
  simp [handleResponse, hs]

/-- A `Found` extraction means the whole pipeline parse succeeded. -/
theorem extract_found {j : Json} {ids : List Int} (h : extract j = .ok (some ids)) :
    parseAll (pipelineParts j) = some ids := by
  simp only [extract] at h
  unfold pipelineParts
  by_cases hnull : stripBracketsQuotes (rxnormField j).dump ≠ "null".data
  · rw [if_pos hnull] at h
    cases hpa : parseAll (((splitComma
        (stripBracketsQuotes (rxnormField j).dump)).map trim).filter
          fun s => !s.isEmpty) with
    | none => rw [hpa] at h; cases h
    | some ids2 =>
      rw [hpa] at h
      exact FindResult.ok.inj h
  · rw [if_neg hnull] at h
    exact Option.noConfusion (FindResult.ok.inj h)

/-! ### The claims -/

/-- C1 counterexample: when both the first attempt and the retry fail at
the transport level, `find_rxcui` ends in a process abort (the `unwrap`
of the second outcome panics); it does not return a typed failure to the
immediate caller. -/
theorem claim1_cex :
    (find_rxcui true "aspirin".data netBothFail).1 = .panic := rfl

/-- C1 (amended): for every call in which both network attempts fail at
the transport level, `find_rxcui` makes exactly two attempts and then
aborts the process via `unwrap` on the second failed outcome, returning
no value (neither `Ok` nor a typed error) to the caller. -/
theorem claim1 (normalize : Bool) (drug : Str) (net : Network)
    (e0 e1 : TransportError) (h0 : net 0 = .error e0) (h1 : net 1 = .error e1) :
    (find_rxcui normalize drug net).1 = .panic ∧
      (find_rxcui normalize drug net).2.length = 2 := by
  rw [find_rxcui_bothFail normalize drug net e0 e1 h0 h1]
  exact ⟨rfl, rfl⟩

/-- C1 witness: the amended statement at a concrete double-failure. -/
theorem claim1_witness :
    (find_rxcui false "vit-c".data netBothFail).1 = .panic ∧
      (find_rxcui false "vit-c".data netBothFail).2.length = 2 :=
  claim1 false "vit-c".data netBothFail ⟨"error sending request".data⟩
    ⟨"error sending request".data⟩ rfl rfl

/-- C2 counterexample: a 2xx response whose body is
`{"idGroup":{"rxnormId":[]}}` makes `find_rxcui` return `Ok(Some([]))`:
the stripped dump of `[]` is the empty string, which is not `"null"`, and
splitting it yields no non-empty piece. -/
theorem claim2_cex :
    (find_rxcui false "vit-c".data (netFirst ⟨200, .parsed bodyEmptyArr⟩)).1
      = .ok (some []) := rfl

/-- C2 (amended): for a 2xx response, a missing or null
`idGroup.rxnormId` yields `Ok(None)` (NotFound), but an empty array `[]`
yields the empty Found list `Ok(Some([]))`, not NotFound. -/
theorem claim2 (normalize : Bool) (drug : Str) (net : Network) (st : Nat) (j : Json)
    (h0 : net 0 = .ok ⟨st, .parsed j⟩) (hs : isSuccessStatus st = true) :
    (rxnormField j = .null → (find_rxcui normalize drug net).1 = .ok none) ∧
    (rxnormField j = .jarr [] →
      (find_rxcui normalize drug net).1 = .ok (some [])) := by
  have hbase : (find_rxcui normalize drug net).1 = extract j := by
    rw [find_rxcui_first normalize drug net _ h0]
    exact handleResponse_success st j hs
  constructor
  · intro hf
    rw [hbase]
    simp only [extract]
    rw [hf]
    rfl
  · intro hf
    rw [hbase]
    simp only [extract]
    rw [hf]
    rfl

/-- C2 witness: the amended statement at an absent field and at an empty
array. -/
theorem claim2_witness :
    (find_rxcui true "vit-c".data (netFirst ⟨200, .parsed bodyNoId⟩)).1 = .ok none ∧
    (find_rxcui true "q".data (netFirst ⟨299, .parsed bodyEmptyArr⟩)).1
      = .ok (some []) :=
  ⟨(claim2 true "vit-c".data (netFirst ⟨200, .parsed bodyNoId⟩) 200 bodyNoId
      rfl rfl).1 rfl,
   (claim2 true "q".data (netFirst ⟨299, .parsed bodyEmptyArr⟩) 299 bodyEmptyArr
      rfl rfl).2 rfl⟩

/-- C3 counterexample: a 2xx body that is not valid JSON, and a 2xx body
`{"idGroup":{"rxnormId":["abc"]}}`, both make `find_rxcui` abort the
process (the `unwrap` on `json::parse`, respectively on `parse::<i32>`,
panics); no typed `ParseError` is returned to the caller. -/
theorem claim3_cex :
    (find_rxcui false "x".data (netFirst ⟨200, .invalid "not json".data⟩)).1
      = .panic ∧
    (find_rxcui false "x".data (netFirst ⟨200, .parsed bodyAbc⟩)).1 = .panic :=
  ⟨rfl, rfl⟩

/-- C3 (amended): for every 2xx response whose body is not valid JSON, or
whose extracted identifier text is not `"null"` and contains a piece that
does not parse as `i32`, `find_rxcui` aborts the process via panic; in
particular it never returns a partial list. -/
theorem claim3 (normalize : Bool) (drug : Str) (net : Network) (st : Nat)
    (hs : isSuccessStatus st = true) :
    (∀ raw : Str, net 0 = .ok ⟨st, .invalid raw⟩ →
      (find_rxcui normalize drug net).1 = .panic) ∧
    (∀ j : Json, net 0 = .ok ⟨st, .parsed j⟩ →
      stripBracketsQuotes (rxnormField j).dump ≠ "null".data →
      parseAll (pipelineParts j) = none →
      (find_rxcui normalize drug net).1 = .panic) := by
  constructor
  · intro raw h0
    rw [find_rxcui_first normalize drug net _ h0]
    show handleResponse _ = _
    simp [handleResponse, hs]
  · intro j h0 hnull hpa
    rw [find_rxcui_first normalize drug net _ h0]
    show handleResponse _ = _
    rw [handleResponse_success st j hs]
    simp only [extract]
    rw [if_pos hnull]
    have hpa2 : parseAll (((splitComma
        (stripBracketsQuotes (rxnormField j).dump)).map trim).filter
          fun s => !s.isEmpty) = none := hpa
    rw [hpa2]

/-- C3 witness: the amended statement at an invalid body and at
`["abc"]`. -/
theorem claim3_witness :
    (find_rxcui true "y1".data (netFirst ⟨200, .invalid "oops".data⟩)).1
      = .panic ∧
    (find_rxcui true "y2".data (netFirst ⟨200, .parsed bodyAbc⟩)).1 = .panic :=
  ⟨(claim3 true "y1".data (netFirst ⟨200, .invalid "oops".data⟩) 200 rfl).1
      "oops".data rfl,
   (claim3 true "y2".data (netFirst ⟨200, .parsed bodyAbc⟩) 200 rfl).2
      bodyAbc rfl (by decide) (by decide)⟩

/-- C4: whenever an HTTP response with a non-2xx status is obtained, on
the first or on the second attempt, `find_rxcui` terminates with the
remote-error value `Err("RxNav returned an error")` and issues no further
request; a non-2xx response is never retried. -/
theorem claim4 (normalize : Bool) (drug : Str) (net : Network) (res : Response)
    (hns : isSuccessStatus res.status = false) :
    (net 0 = .ok res →
      (find_rxcui normalize drug net).1 = .err "RxNav returned an error".data ∧
      (find_rxcui normalize drug net).2.length = 1) ∧
    (∀ e : TransportError, net 0 = .error e → net 1 = .ok res →
      (find_rxcui normalize drug net).1 = .err "RxNav returned an error".data ∧
      (find_rxcui normalize drug net).2.length = 2) := by
  constructor
  · intro h0
    rw [find_rxcui_first normalize drug net res h0]
    refine ⟨?_, rfl⟩
    show handleResponse res = _
    simp [handleResponse, hns]
  · intro e h0 h1
    rw [find_rxcui_retry normalize drug net e res h0 h1]
    refine ⟨?_, rfl⟩
    show handleResponse res = _
    simp [handleResponse, hns]

/-- C4 witness: a 503 on the first attempt, and a 503 on the retry. -/
theorem claim4_witness :
    (find_rxcui true "aspirin".data (netFirst ⟨503, .parsed .null⟩)).1
      = .err "RxNav returned an error".data ∧
    (find_rxcui true "aspirin".data (netRetry ⟨503, .parsed .null⟩)).1
      = .err "RxNav returned an error".data :=
  ⟨((claim4 true "aspirin".data (netFirst ⟨503, .parsed .null⟩)
      ⟨503, .parsed .null⟩ rfl).1 rfl).1,
   ((claim4 true "aspirin".data (netRetry ⟨503, .parsed .null⟩)
      ⟨503, .parsed .null⟩ rfl).2 ⟨"connection reset".data⟩ rfl rfl).1⟩

/-- C5: every request issued by a call of `find_rxcui` is a GET against
the fixed endpoint with query parameter `name` set verbatim to the drug
name and `search` set to `"2"` when `normalize` is true and `"0"` when it
is false; both attempts of one call carry the same single mode. -/
theorem claim5 (normalize : Bool) (drug : Str) (net : Network) :
    ∀ r ∈ (find_rxcui normalize drug net).2,
      r.method = "GET".data ∧ r.url = RXNAV_URL ∧
      r.query = [("name".data, drug),
        ("search".data, if normalize then "2".data else "0".data)] := by
  intro r hr
  have hreq : r = make_call_request drug (searchMode normalize) := by
    cases h0 : net 0 with
    | ok res =>
      rw [find_rxcui_first normalize drug net res h0] at hr
      simpa using hr
    | error e =>
      cases h1 : net 1 with
      | ok res =>
        rw [find_rxcui_retry normalize drug net e res h0 h1] at hr
        simpa using hr
      | error e2 =>
        rw [find_rxcui_bothFail normalize drug net e e2 h0 h1] at hr
        simpa using hr
  subst hreq
  exact ⟨rfl, rfl, rfl⟩

/-- C5 witness: the request shape at a concrete call with
`normalize = true`. -/
theorem claim5_witness :
    (make_call_request "vit-c".data (searchMode true)).method = "GET".data ∧
    (make_call_request "vit-c".data (searchMode true)).url = RXNAV_URL ∧
    (make_call_request "vit-c".data (searchMode true)).query
      = [("name".data, "vit-c".data),
         ("search".data, if true then "2".data else "0".data)] :=
  claim5 true "vit-c".data netBothFail
    (make_call_request "vit-c".data (searchMode true)) (by decide)

/-- C6: if the first attempt fails at the transport level and the second
attempt returns a 2xx response, the call yields the same result as a call
whose first attempt returns that same response directly. -/
theorem claim6 (normalize : Bool) (drug : Str) (net netd : Network)
    (e : TransportError) (res : Response)
    (hs : isSuccessStatus res.status = true)
    (h0 : net 0 = .error e) (h1 : net 1 = .ok res) (h0d : netd 0 = .ok res) :
    (find_rxcui normalize drug net).1 = (find_rxcui normalize drug netd).1 := by
  rw [find_rxcui_retry normalize drug net e res h0 h1,
    find_rxcui_first normalize drug netd res h0d]

/-- C6 witness: transport failure then `{"idGroup":{"rxnormId":["1191"]}}`
with 200 equals the direct success. -/
theorem claim6_witness :
    (find_rxcui true "aspirin".data
        (netRetry ⟨200, .parsed bodyAspirin⟩)).1
      = (find_rxcui true "aspirin".data
          (netFirst ⟨200, .parsed bodyAspirin⟩)).1 :=
  claim6 true "aspirin".data (netRetry ⟨200, .parsed bodyAspirin⟩)
    (netFirst ⟨200, .parsed bodyAspirin⟩) ⟨"connection reset".data⟩
    ⟨200, .parsed bodyAspirin⟩ rfl rfl rfl rfl

/-- C7: for a 2xx response whose `idGroup.rxnormId` is a non-empty array
of numeric strings, each of whose values fits in `i32`, the Found list is
exactly the decimal value of each entry in source order: no sorting, no
deduplication, duplicates kept. -/
theorem claim7 (normalize : Bool) (drug : Str) (net : Network) (st : Nat)
    (j : Json) (entries : List Str)
    (h0 : net 0 = .ok ⟨st, .parsed j⟩) (hs : isSuccessStatus st = true)
    (hfield : rxnormField j = .jarr (entries.map .jstr))
    (hne : entries ≠ [])
    (hent : ∀ s ∈ entries, s ≠ [] ∧ ∀ c ∈ s, c.isDigit = true)
    (hrange : ∀ s ∈ entries, digitsVal s ≤ 2147483647) :
    (find_rxcui normalize drug net).1
      = .ok (some (entries.map fun s => (digitsVal s : Int))) := by
  rw [find_rxcui_first normalize drug net _ h0]
  show handleResponse _ = _
  rw [handleResponse_success st j hs, extract_digits hfield hne hent,
    parseAll_eq_map entries (fun s => (digitsVal s : Int))
      (fun s hs2 => parseI32_digits (hent s hs2).1 (hent s hs2).2 (hrange s hs2))]

/-- C7 witness: `["12","12","7"]` yields `Found([12, 12, 7])`, the
duplicate kept and source order preserved. -/
theorem claim7_witness :
    (find_rxcui true "vit-c".data (netFirst ⟨200, .parsed bodyDup⟩)).1
      = .ok (some [12, 12, 7]) := by
  have h := claim7 true "vit-c".data (netFirst ⟨200, .parsed bodyDup⟩) 200 bodyDup
    ["12".data, "12".data, "7".data] rfl rfl rfl (by decide) (by decide) (by decide)
  exact h

/-- C8 counterexample: a 2xx response `{"idGroup":{"rxnormId":["-5"]}}`
yields `Found([-5])`, which contains a negative integer, contradicting the
claimed non-negativity of every Found entry. -/
theorem claim8_cex :
    (find_rxcui true "a".data (netFirst ⟨200, .parsed bodyNeg⟩)).1
      = .ok (some [-5]) ∧ (-5 : Int) < 0 :=
  ⟨rfl, by decide⟩

/-- C8 (amended): whenever `find_rxcui` returns `Found(ids)` from an
obtained response with parsed body `j`, `ids` corresponds element-wise to
the pipeline substrings of `j`, each integer the exact (lossless) `i32`
parse of its substring, with no entry dropped — so no partial list is
ever returned; entries need not be non-negative, since signed numeric
strings such as `"-5"` parse successfully. -/
theorem claim8 (normalize : Bool) (drug : Str) (net : Network)
    (st : Nat) (j : Json) (ids : List Int)
    (hres : obtainedResponse net = some ⟨st, .parsed j⟩)
    (h : (find_rxcui normalize drug net).1 = .ok (some ids)) :
    List.Forall₂ (fun s v => parseI32 s = some v) (pipelineParts j) ids := by
  have hext : extract j = .ok (some ids) := by
    cases h0 : net 0 with
    | ok res =>
      have hr : res = ⟨st, .parsed j⟩ := by
        unfold obtainedResponse at hres
        rw [h0] at hres
        exact Option.some.inj hres
      subst hr
      rw [find_rxcui_first normalize drug net _ h0] at h
      have h2 : handleResponse ⟨st, .parsed j⟩ = .ok (some ids) := h
      simp only [handleResponse] at h2
      cases hsucc : isSuccessStatus st with
      | true => simpa [hsucc] using h2
      | false => simp [hsucc] at h2
    | error e =>
      cases h1 : net 1 with
      | ok res =>
        have hr : res = ⟨st, .parsed j⟩ := by
          unfold obtainedResponse at hres
          rw [h0, h1] at hres
          exact Option.some.inj hres
        subst hr
        rw [find_rxcui_retry normalize drug net e _ h0 h1] at h
        have h2 : handleResponse ⟨st, .parsed j⟩ = .ok (some ids) := h
        simp only [handleResponse] at h2
        cases hsucc : isSuccessStatus st with
        | true => simpa [hsucc] using h2
        | false => simp [hsucc] at h2
      | error e2 =>
        exfalso
        unfold obtainedResponse at hres
        rw [h0, h1] at hres
        exact Option.noConfusion hres
  exact parseAll_forall₂ _ _ (extract_found hext)

/-- C8 witness: the amended statement at the `["-5"]` response. -/
theorem claim8_witness :
    List.Forall₂ (fun s v => parseI32 s = some v)
      (pipelineParts bodyNeg) [(-5 : Int)] :=
  claim8 true "w".data (netFirst ⟨200, .parsed bodyNeg⟩) 200 bodyNeg
    [(-5 : Int)] rfl rfl

/-- C9: a 2xx response whose body is `{"idGroup":{"rxnormId":["null"]}}`
yields `Ok(None)` (NotFound) rather than a parse failure, because the
bracket-and-quote-stripped dump of the one-element array is the literal
text `null`. -/
theorem claim9 (normalize : Bool) (drug : Str) (net : Network) (st : Nat)
    (h0 : net 0 = .ok ⟨st, .parsed bodyNullStr⟩) (hs : isSuccessStatus st = true) :
    (find_rxcui normalize drug net).1 = .ok none := by
  rw [find_rxcui_first normalize drug net _ h0]
  show handleResponse _ = _
  rw [handleResponse_success st bodyNullStr hs]
  rfl

/-- C9 witness: the statement at a concrete 204 response. -/
theorem claim9_witness :
    (find_rxcui false "x".data (netFirst ⟨204, .parsed bodyNullStr⟩)).1
      = .ok none :=
  claim9 false "x".data (netFirst ⟨204, .parsed bodyNullStr⟩) 204 rfl rfl

/-- C10: identifiers are parsed as 32-bit signed integers: a numeric
entry whose value is at most `2147483647` is converted exactly, and an
entry exceeding the `i32` range makes the whole call panic, so no Found
result with a wrapped or truncated value is ever produced. -/
theorem claim10 (normalize : Bool) (drug : Str) (net : Network) (st : Nat)
    (j : Json) (entries : List Str)
    (h0 : net 0 = .ok ⟨st, .parsed j⟩) (hs : isSuccessStatus st = true)
    (hfield : rxnormField j = .jarr (entries.map .jstr))
    (hne : entries ≠ [])
    (hent : ∀ s ∈ entries, s ≠ [] ∧ ∀ c ∈ s, c.isDigit = true) :
    ((∀ s ∈ entries, digitsVal s ≤ 2147483647) →
      (find_rxcui normalize drug net).1
        = .ok (some (entries.map fun s => (digitsVal s : Int)))) ∧
    ((∃ s ∈ entries, 2147483647 < digitsVal s) →
      (find_rxcui normalize drug net).1 = .panic) := by
  have hbase : (find_rxcui normalize drug net).1 = extract j := by
    rw [find_rxcui_first normalize drug net _ h0]
    exact handleResponse_success st j hs
  constructor
  · intro hrange
    rw [hbase, extract_digits hfield hne hent,
      parseAll_eq_map entries (fun s => (digitsVal s : Int))
        (fun s hs2 => parseI32_digits (hent s hs2).1 (hent s hs2).2 (hrange s hs2))]
  · rintro ⟨s, hsmem, hbig⟩
    rw [hbase, extract_digits hfield hne hent,
      parseAll_none hsmem
        (parseI32_digits_overflow (hent s hsmem).1 (hent s hsmem).2 hbig)]

/-- C10 witness: `["2147483647"]` converts exactly and `["2147483648"]`
panics instead of wrapping. -/
theorem claim10_witness :
    (find_rxcui true "max".data (netFirst ⟨200, .parsed bodyMax⟩)).1
      = .ok (some [2147483647]) ∧
    (find_rxcui true "big".data (netFirst ⟨200, .parsed bodyBig⟩)).1
      = .panic := by
  constructor
  · have h := (claim10 true "max".data (netFirst ⟨200, .parsed bodyMax⟩) 200
      bodyMax ["2147483647".data] rfl rfl rfl (by decide) (by decide)).1 (by decide)
    exact h
  · exact (claim10 true "big".data (netFirst ⟨200, .parsed bodyBig⟩) 200
      bodyBig ["2147483648".data] rfl rfl rfl (by decide) (by decide)).2
      ⟨"2147483648".data, by decide, by decide⟩

end RxNorm
